import Mathlib

/-!
Shallow embedding of the Energy Consumption dashboard
(`src/app.py`, class `EnergyConsumptionApp`).

The app loads two regression predictors and an expected feature-name list
from artifacts (`load_resources`), and on each interaction builds a
14-feature record from the user's slider inputs and a date/time
(`run`, lines 154-191), aligns it to the loaded feature order
(`input_data[self.feature_names]`, line 195), invokes both predictors
(lines 202-203) and displays either both estimates or an error message.

Numeric values are embedded as rationals; predictors are opaque functions
from an aligned vector to either a scalar or a `ValueError` message;
the feature record is the association list of column-name/value pairs in
the order the `pd.DataFrame` is constructed (lines 176-191).
-/

set_option autoImplicit false

namespace EnergyApp

/-- Raw user inputs collected from the sidebar sliders (`app.py` lines 154-158). -/
structure RawInputs where
  voltage : ℚ
  global_intensity : ℚ
  sub_metering_1 : ℚ
  sub_metering_2 : ℚ
  sub_metering_3 : ℚ
deriving DecidableEq

/-- The date part collected by `st.sidebar.date_input` (line 161). -/
structure DateD where
  year : ℕ
  month : ℕ
  day : ℕ
deriving DecidableEq

/-- The time part collected by `st.sidebar.time_input` (line 162). -/
structure TimeD where
  hour : ℕ
  minute : ℕ
deriving DecidableEq

/-- A combined date+time, the result of `pd.Timestamp.combine(date, time)` (line 165). -/
structure DateTime where
  year : ℕ
  month : ℕ
  day : ℕ
  hour : ℕ
  minute : ℕ
deriving DecidableEq

/-- `pd.Timestamp.combine(date, time)` (line 165): date fields from the date,
time fields from the time. -/
def combine (d : DateD) (t : TimeD) : DateTime :=
  ⟨d.year, d.month, d.day, t.hour, t.minute⟩

/-- Gregorian leap-year rule, as in CPython's `datetime` module, which backs
`pd.Timestamp.weekday()` called at line 173. -/
def isLeap (y : ℕ) : Bool :=
  y % 4 == 0 && (y % 100 != 0 || y % 400 == 0)

/-- Number of days of month `m` of year `y` (proleptic Gregorian calendar). -/
def daysInMonth (y m : ℕ) : ℕ :=
  if m = 2 then (if isLeap y then 29 else 28)
  else if m = 4 ∨ m = 6 ∨ m = 9 ∨ m = 11 then 30
  else 31

/-- Days in year `y` before the first day of month `m` (proleptic Gregorian). -/
def daysBeforeMonth (y : ℕ) : ℕ → ℕ
  | 0 => 0
  | 1 => 0
  | m + 1 => daysBeforeMonth y m + daysInMonth y m

/-- Days before January 1 of year `y` in the proleptic Gregorian calendar
(day 1 = January 1 of year 1), as in CPython's `datetime._days_before_year`. -/
def daysBeforeYear (y : ℕ) : ℕ :=
  (y - 1) * 365 + (y - 1) / 4 - (y - 1) / 100 + (y - 1) / 400

/-- Proleptic Gregorian ordinal of a date, as in CPython's `datetime._ymd2ord`:
January 1 of year 1 is ordinal 1. -/
def toOrdinal (dt : DateTime) : ℕ :=
  daysBeforeYear dt.year + daysBeforeMonth dt.year dt.month + dt.day

/-- `date_time.weekday()` (line 173): Monday = 0 through Sunday = 6.
January 1 of year 1 (ordinal 1) is a Monday in the proleptic Gregorian
calendar, so the weekday is `(ordinal + 6) % 7`, exactly as CPython's
`date.weekday` computes it. -/
def weekday (dt : DateTime) : ℕ :=
  (toOrdinal dt + 6) % 7

/-- A feature record: the column-name/value pairs of the one-row `pd.DataFrame`
built at lines 176-191, in construction order. -/
abbrev FeatureRecord := List (String × ℚ)

/-- Column lookup in the feature record (a `pd.DataFrame` column access by name). -/
def lookupFeature (record : FeatureRecord) (name : String) : Option ℚ :=
  match record with
  | [] => none
  | (k, v) :: rest => if name = k then some v else lookupFeature rest name

/-- The feature record built by `run` (lines 164-191): reactive power fixed to
`0.0`, the five slider readings, the calendar fields extracted from the
combined date+time, the holiday and light constants `is_holiday, light = 0, 1`
(line 173), and the weekday. -/
def build (r : RawInputs) (dt : DateTime) : FeatureRecord :=
  [ ("Global_reactive_power", 0),
    ("Voltage", r.voltage),
    ("Global_intensity", r.global_intensity),
    ("Sub_metering_1", r.sub_metering_1),
    ("Sub_metering_2", r.sub_metering_2),
    ("Sub_metering_3", r.sub_metering_3),
    ("Year", (dt.year : ℚ)),
    ("Month", (dt.month : ℚ)),
    ("Day", (dt.day : ℚ)),
    ("Hour", (dt.hour : ℚ)),
    ("Minute", (dt.minute : ℚ)),
    ("Is_holiday", 0),
    ("Light", 1),
    ("Weekday", (weekday dt : ℚ)) ]

/-- Column re-selection `input_data[self.feature_names]` (line 195): the i-th
entry of the result is the record's value for the i-th requested name; a
requested name absent from the record raises `KeyError` (the `MissingFeature`
error), carried here as the offending name. -/
def align (record : FeatureRecord) (order : List String) : Except String (List ℚ) :=
  match order with
  | [] => .ok []
  | n :: rest =>
    match lookupFeature record n with
    | none => .error n
    | some v =>
      match align record rest with
      | .error m => .error m
      | .ok vs => .ok (v :: vs)

/-- An opaque predictor capability: `model.predict(input_data)[0]` maps the
aligned vector to a scalar, or raises `ValueError` (carried as a message)
when it rejects the vector (lines 202-203, 221). -/
abbrev Predictor := List ℚ → Except String ℚ

/-- `PredictionService.predict`: invoke the loaded predictor on the aligned
vector (`self.linear_model.predict(input_data)[0]`, line 202). -/
def predict (p : Predictor) (v : List ℚ) : Except String ℚ :=
  p v

/-- A mocked predictor capability returning a fixed constant for any input. -/
def constPredictor (c : ℚ) : Predictor :=
  fun _ => .ok c

/-- What one interaction renders on the display boundary: either both
estimates (the single prediction-card markdown of lines 206-220), or the
`st.error` message for missing features (line 197) or for a prediction
failure (line 222). -/
inductive Outcome where
  | shown (linear ridge : ℚ)
  | missingFeatures (name : String)
  | predictionError (msg : String)
deriving DecidableEq

/-- The process state: the three resources loaded by `load_resources`
(lines 131-133) plus the history of outcomes rendered so far (the only
thing an interaction adds to the world). -/
structure ProcessState where
  linear_model : Predictor
  ridge_model : Predictor
  feature_names : List String
  displayed : List Outcome

/-- The outcome of one `run` interaction (lines 143-222): build the record,
align it to `self.feature_names` (`KeyError` → missing-features error and
`st.stop`), then invoke the linear and ridge predictors in that order
(`ValueError` from either → prediction-error message); on success both
estimates are rendered together. -/
def runOutcome (s : ProcessState) (r : RawInputs) (d : DateD) (t : TimeD) : Outcome :=
  match align (build r (combine d t)) s.feature_names with
  | .error n => .missingFeatures n
  | .ok v =>
    match s.linear_model v with
    | .error m => .predictionError m
    | .ok lin =>
      match s.ridge_model v with
      | .error m => .predictionError m
      | .ok rid => .shown lin rid

/-- One interaction: the outcome is rendered (appended to the display
history); the loaded resources are carried over unchanged. -/
def run (s : ProcessState) (r : RawInputs) (d : DateD) (t : TimeD) :
    ProcessState × Outcome :=
  ({ s with displayed := s.displayed ++ [runOutcome s r d t] }, runOutcome s r d t)

/-- One user interaction's inputs: the five slider readings, a date and a time. -/
abbrev Interaction := RawInputs × DateD × TimeD

/-- A sequence of interactions run one after the other, each on the state
left by the previous one (Streamlit reruns the script per interaction). -/
def runAll (s : ProcessState) (ins : List Interaction) : ProcessState :=
  ins.foldl (fun st i => (run st i.1 i.2.1 i.2.2).1) s

/-- What loading one artifact can do: succeed, fail because the location is
unreadable (`FileNotFoundError`), or fail to deserialize for any other
reason (any other exception from `joblib.load`). -/
inductive ArtifactState (α : Type) where
  | ok (a : α)
  | notFound (msg : String)
  | corrupt (msg : String)

/-- The startup error taxonomy of `load_resources`: the
`except FileNotFoundError` branch (line 136) and the generic
`except Exception` branch (line 139); both call `st.stop()`. -/
inductive LoadError where
  | artifactNotFound (msg : String)
  | artifactCorrupt (msg : String)
deriving DecidableEq

/-- Result of one `joblib.load` call, classified by the two except branches. -/
def loadOne {α : Type} : ArtifactState α → Except LoadError α
  | .ok a => .ok a
  | .notFound m => .error (.artifactNotFound m)
  | .corrupt m => .error (.artifactCorrupt m)

/-- `load_resources` (lines 129-141): load the linear model, the ridge model
and the feature-name list in that order; the first raised exception aborts
the block and is classified by the except branches, so the first failing
artifact determines the reported error. -/
def load_resources (lin rid : ArtifactState Predictor)
    (names : ArtifactState (List String)) : Except LoadError ProcessState :=
  match loadOne lin with
  | .error e => .error e
  | .ok l =>
    match loadOne rid with
    | .error e => .error e
    | .ok r =>
      match loadOne names with
      | .error e => .error e
      | .ok n => .ok ⟨l, r, n, []⟩

/-- The whole process: startup loading (`__init__` calls `load_resources`;
failure stops the script before `run` is ever reached, lines 138-141 and
239-241), then the interactions. -/
def startProcess (lin rid : ArtifactState Predictor)
    (names : ArtifactState (List String)) (ins : List Interaction) :
    Except LoadError ProcessState :=
  match load_resources lin rid names with
  | .error e => .error e
  | .ok s => .ok (runAll s ins)

/-- The full feature order of the record, used as a concrete expected order
in examples (the content of `feature_names.pkl` when it matches the builder). -/
def fullFeatureOrder : List String :=
  [ "Global_reactive_power", "Voltage", "Global_intensity",
    "Sub_metering_1", "Sub_metering_2", "Sub_metering_3",
    "Year", "Month", "Day", "Hour", "Minute",
    "Is_holiday", "Light", "Weekday" ]

/-- Validity of the raw inputs: the slider domain ranges of lines 154-158. -/
def validInputs (r : RawInputs) : Prop :=
  220 ≤ r.voltage ∧ r.voltage ≤ 255 ∧
  0 ≤ r.global_intensity ∧ r.global_intensity ≤ 20 ∧
  0 ≤ r.sub_metering_1 ∧ r.sub_metering_1 ≤ 50 ∧
  0 ≤ r.sub_metering_2 ∧ r.sub_metering_2 ≤ 50 ∧
  0 ≤ r.sub_metering_3 ∧ r.sub_metering_3 ≤ 50

instance (r : RawInputs) : Decidable (validInputs r) := by
  unfold validInputs; infer_instance

/-- A mocked predictor capability that always rejects its input with a
`ValueError` message. -/
def errPredictor (m : String) : Predictor :=
  fun _ => .error m

/-- Concrete raw inputs inside every slider range. -/
def r0 : RawInputs := ⟨240, 5, 1, 1, 6⟩

/-- Concrete date 2024-11-28 (a Thursday). -/
def d0 : DateD := ⟨2024, 11, 28⟩

/-- Concrete time 12:00. -/
def t0 : TimeD := ⟨12, 0⟩

/-- The vector obtained by aligning `build r0 (combine d0 t0)` to the full
feature order. -/
def alignedV0 : List ℚ :=
  [0, 240, 5, 1, 1, 6, 2024, 11, 28, 12, 0, 0, 1, 3]

/-- The error, if any, that `load_resources` reports for the given three
artifact states. -/
def loadResult (lin rid : ArtifactState Predictor)
    (names : ArtifactState (List String)) : Option LoadError :=
  match load_resources lin rid names with
  | .error e => some e
  | .ok _ => none

/-- Whether a load result is an `artifactNotFound` failure. -/
def isNotFoundError : Option LoadError → Bool
  | some (.artifactNotFound _) => true
  | _ => false

/-- Whenever `align` succeeds, the resulting vector has one entry per
requested name and its i-th entry is the record's value for the i-th name. -/
theorem align_ok_spec (record : FeatureRecord) :
    ∀ (order : List String) (v : List ℚ), align record order = .ok v →
      v.length = order.length ∧
      ∀ (i : ℕ) (hi : i < order.length),
        v[i]? = lookupFeature record (order.get ⟨i, hi⟩) := by
  intro order
  induction order with
  | nil =>
    intro v hv
    simp only [align, Except.ok.injEq] at hv
    subst hv
    exact ⟨rfl, fun i hi => absurd hi (Nat.not_lt_zero i)⟩
  | cons n rest ih =>
    intro v hv
    cases hval : lookupFeature record n with
    | none => simp [align, hval] at hv
    | some w =>
      cases hrest : align record rest with
      | error m => simp [align, hval, hrest] at hv
      | ok vs =>
        simp only [align, hval, hrest, Except.ok.injEq] at hv
        subst hv
        obtain ⟨hlen, hget⟩ := ih vs hrest
        refine ⟨by simp [hlen], ?_⟩
        intro i hi
        cases i with
        | zero => simp [hval]
        | succ j =>
          have hj : j < rest.length := by simpa using hi
          simpa using hget j hj

/-- When every requested name is present in the record, `align` succeeds. -/
theorem align_ok_of_present (record : FeatureRecord) :
    ∀ (order : List String),
      (∀ n ∈ order, (lookupFeature record n).isSome) →
      ∃ v, align record order = .ok v := by
  intro order
  induction order with
  | nil => intro _; exact ⟨[], rfl⟩
  | cons n rest ih =>
    intro h
    obtain ⟨w, hw⟩ := Option.isSome_iff_exists.mp (h n (List.mem_cons_self n rest))
    obtain ⟨vs, hvs⟩ := ih (fun m hm => h m (List.mem_cons_of_mem n hm))
    exact ⟨w :: vs, by simp [align, hw, hvs]⟩

/-- When some requested name is absent from the record, `align` fails with
one of the absent names (and hence returns no vector at all). -/
theorem align_error_of_missing (record : FeatureRecord) :
    ∀ (order : List String) (n0 : String), n0 ∈ order →
      lookupFeature record n0 = none →
      ∃ n, n ∈ order ∧ lookupFeature record n = none ∧
        align record order = .error n := by
  intro order
  induction order with
  | nil => intro n0 h _; exact absurd h (List.not_mem_nil n0)
  | cons n rest ih =>
    intro n0 hmem h0
    cases hval : lookupFeature record n with
    | none => exact ⟨n, List.mem_cons_self n rest, hval, by simp [align, hval]⟩
    | some w =>
      have hne : n0 ≠ n := by
        intro he
        rw [he, hval] at h0
        exact Option.noConfusion h0
      have hrest : n0 ∈ rest := by
        rcases List.mem_cons.mp hmem with he | hr
        · exact absurd he hne
        · exact hr
      obtain ⟨m, hm_mem, hm_none, hm_err⟩ := ih n0 hrest h0
      exact ⟨m, List.mem_cons_of_mem n hm_mem, hm_none,
        by simp [align, hval, hm_err]⟩

/-- The outcome of an interaction depends only on the loaded resources,
never on the display history. -/
theorem runOutcome_congr {s1 s2 : ProcessState}
    (h1 : s1.linear_model = s2.linear_model)
    (h2 : s1.ridge_model = s2.ridge_model)
    (h3 : s1.feature_names = s2.feature_names)
    (r : RawInputs) (d : DateD) (t : TimeD) :
    runOutcome s1 r d t = runOutcome s2 r d t := by
  unfold runOutcome
  rw [h1, h2, h3]

/-- Running a sequence of interactions leaves the loaded resources untouched. -/
theorem runAll_loaded (ins : List Interaction) :
    ∀ s : ProcessState,
      (runAll s ins).linear_model = s.linear_model ∧
      (runAll s ins).ridge_model = s.ridge_model ∧
      (runAll s ins).feature_names = s.feature_names := by
  induction ins with
  | nil => intro s; exact ⟨rfl, rfl, rfl⟩
  | cons i rest ih =>
    intro s
    exact ih (run s i.1 i.2.1 i.2.2).1

/-- Running a sequence of interactions appends exactly one outcome per
interaction, each computed from the unchanged loaded resources. -/
theorem runAll_displayed (ins : List Interaction) :
    ∀ s : ProcessState,
      (runAll s ins).displayed
        = s.displayed ++ ins.map (fun i => runOutcome s i.1 i.2.1 i.2.2) := by
  induction ins with
  | nil => intro s; simp [runAll]
  | cons i rest ih =>
    intro s
    have hfun : (fun j : Interaction =>
          runOutcome (run s i.1 i.2.1 i.2.2).1 j.1 j.2.1 j.2.2)
        = fun j : Interaction => runOutcome s j.1 j.2.1 j.2.2 :=
      funext fun j => runOutcome_congr rfl rfl rfl j.1 j.2.1 j.2.2
    have h := ih (run s i.1 i.2.1 i.2.2).1
    rw [hfun] at h
    show (runAll (run s i.1 i.2.1 i.2.2).1 rest).displayed = _
    rw [h]
    show (s.displayed ++ [runOutcome s i.1 i.2.1 i.2.2]) ++ _ = _
    simp

/-- C1: for every set of valid raw inputs within the slider domain ranges and
every date/time, aligning the built feature record against the expected
feature order yields (whenever it yields a vector, and it does whenever every
expected name is present in the record) a vector whose length equals the
length of the expected order and whose i-th value is the built record's value
for the i-th expected feature name. -/
theorem claim_C1_align_build (r : RawInputs) (dt : DateTime)
    (order : List String) (_hvalid : validInputs r) :
    (∀ v, align (build r dt) order = .ok v →
      v.length = order.length ∧
      ∀ (i : ℕ) (hi : i < order.length),
        v[i]? = lookupFeature (build r dt) (order.get ⟨i, hi⟩)) ∧
    ((∀ n ∈ order, (lookupFeature (build r dt) n).isSome) →
      ∃ v, align (build r dt) order = .ok v ∧ v.length = order.length) := by
  refine ⟨fun v hv => align_ok_spec (build r dt) order v hv, fun hp => ?_⟩
  obtain ⟨v, hv⟩ := align_ok_of_present (build r dt) order hp
  exact ⟨v, hv, (align_ok_spec (build r dt) order v hv).1⟩

/-- C1 witness: at the concrete inputs 240 V, 5 A, (1, 1, 6) Wh,
2024-11-28 12:00 and the full feature order, alignment succeeds with a vector
of the expected length. -/
theorem claim_C1_align_build_witness :
    ∃ v, align (build r0 (combine d0 t0)) fullFeatureOrder = .ok v ∧
      v.length = fullFeatureOrder.length :=
  (claim_C1_align_build r0 (combine d0 t0) fullFeatureOrder (by decide)).2
    (by decide)

/-- C2: whenever the expected order contains a name absent from the built
record, `align` fails with that missing name, returns no vector at all, and
the interaction's outcome is the missing-feature error for every choice of
predictors — so no prediction is attempted and no default is substituted. -/
theorem claim_C2_missing_feature (r : RawInputs) (dt : DateTime)
    (order : List String) (n0 : String) (hmem : n0 ∈ order)
    (hnone : lookupFeature (build r dt) n0 = none) :
    ∃ n, n ∈ order ∧ lookupFeature (build r dt) n = none ∧
      align (build r dt) order = .error n ∧
      (∀ v, align (build r dt) order ≠ .ok v) ∧
      (∀ (lin rid : Predictor) (disp : List Outcome) (d : DateD) (t : TimeD),
        combine d t = dt →
        runOutcome ⟨lin, rid, order, disp⟩ r d t = .missingFeatures n) := by
  obtain ⟨n, hn_mem, hn_none, hn_err⟩ :=
    align_error_of_missing (build r dt) order n0 hmem hnone
  refine ⟨n, hn_mem, hn_none, hn_err, ?_, ?_⟩
  · intro v hv
    rw [hn_err] at hv
    exact Except.noConfusion hv
  · intro lin rid disp d t hdt
    simp [runOutcome, hdt, hn_err]

/-- C2 witness: with expected order `["Voltage", "Bogus"]`, the built record
lacks the name `"Bogus"`, alignment fails with it and the outcome is the
missing-feature error for any predictors. -/
theorem claim_C2_missing_feature_witness :
    ∃ n, n ∈ ["Voltage", "Bogus"] ∧
      lookupFeature (build r0 (combine d0 t0)) n = none ∧
      align (build r0 (combine d0 t0)) ["Voltage", "Bogus"] = .error n ∧
      (∀ v, align (build r0 (combine d0 t0)) ["Voltage", "Bogus"] ≠ .ok v) ∧
      (∀ (lin rid : Predictor) (disp : List Outcome) (d : DateD) (t : TimeD),
        combine d t = combine d0 t0 →
        runOutcome ⟨lin, rid, ["Voltage", "Bogus"], disp⟩ r0 d t
          = .missingFeatures n) :=
  claim_C2_missing_feature r0 (combine d0 t0) ["Voltage", "Bogus"] "Bogus"
    (by decide) (by decide)

/-- C3: the builder extracts year, month, day from the date and hour, minute
from the time of the combined date+time, stores them in the record, and the
weekday is an integer in 0-6 with Monday = 0; in particular 2024-11-28 12:00
yields Year 2024, Month 11, Day 28, Hour 12, Minute 0, Weekday 3 (Thursday),
and the preceding Monday 2024-11-25 yields weekday 0. -/
theorem claim_C3_datetime_features (r : RawInputs) (d : DateD) (t : TimeD) :
    ((combine d t).year = d.year ∧ (combine d t).month = d.month ∧
     (combine d t).day = d.day ∧ (combine d t).hour = t.hour ∧
     (combine d t).minute = t.minute) ∧
    (∀ dt : DateTime,
      lookupFeature (build r dt) "Year" = some (dt.year : ℚ) ∧
      lookupFeature (build r dt) "Month" = some (dt.month : ℚ) ∧
      lookupFeature (build r dt) "Day" = some (dt.day : ℚ) ∧
      lookupFeature (build r dt) "Hour" = some (dt.hour : ℚ) ∧
      lookupFeature (build r dt) "Minute" = some (dt.minute : ℚ) ∧
      lookupFeature (build r dt) "Weekday" = some (weekday dt : ℚ) ∧
      weekday dt < 7) ∧
    weekday ⟨2024, 11, 28, 12, 0⟩ = 3 ∧
    weekday ⟨2024, 11, 25, 0, 0⟩ = 0 ∧
    lookupFeature (build r ⟨2024, 11, 28, 12, 0⟩) "Year" = some 2024 ∧
    lookupFeature (build r ⟨2024, 11, 28, 12, 0⟩) "Month" = some 11 ∧
    lookupFeature (build r ⟨2024, 11, 28, 12, 0⟩) "Day" = some 28 ∧
    lookupFeature (build r ⟨2024, 11, 28, 12, 0⟩) "Hour" = some 12 ∧
    lookupFeature (build r ⟨2024, 11, 28, 12, 0⟩) "Minute" = some 0 ∧
    lookupFeature (build r ⟨2024, 11, 28, 12, 0⟩) "Weekday" = some 3 := by
  refine ⟨⟨rfl, rfl, rfl, rfl, rfl⟩,
    fun dt => ⟨rfl, rfl, rfl, rfl, rfl, rfl, Nat.mod_lt _ (by decide)⟩,
    by decide, by decide, ?_, ?_, ?_, ?_, ?_, ?_⟩ <;> rfl

/-- C4: for every combination of user inputs and date/time, the built record
fixes reactive power to 0.0, the light flag to the constant 1 ("on") and the
holiday flag to the constant 0 ("not holiday"). -/
theorem claim_C4_constant_features (r : RawInputs) (dt : DateTime) :
    lookupFeature (build r dt) "Global_reactive_power" = some 0 ∧
    lookupFeature (build r dt) "Light" = some 1 ∧
    lookupFeature (build r dt) "Is_holiday" = some 0 :=
  ⟨rfl, rfl, rfl⟩

/-- C5 counterexample input: linear-model artifact corrupt. -/
def cexLinear : ArtifactState Predictor := .corrupt "bad pickle"

/-- C5 counterexample input: ridge-model location unreadable. -/
def cexRidge : ArtifactState Predictor := .notFound "ridge_model.pkl"

/-- C5 counterexample input: feature-name list loads fine. -/
def cexNames : ArtifactState (List String) := .ok fullFeatureOrder

/-- C5 fails as stated: with the linear-model artifact corrupt and the
ridge-model location unreadable, one of the three locations is unreadable,
yet startup reports `ArtifactCorrupt` (the first failure in load order), not
`ArtifactNotFound`. -/
theorem claim_C5_counterexample :
    cexRidge = ArtifactState.notFound "ridge_model.pkl" ∧
    loadResult cexLinear cexRidge cexNames
      = some (.artifactCorrupt "bad pickle") ∧
    isNotFoundError (loadResult cexLinear cexRidge cexNames) = false :=
  ⟨rfl, rfl, rfl⟩

/-- C5 amended: the first failing artifact in load order (linear model, ridge
model, feature names) determines the startup error — `ArtifactNotFound` when
that location is unreadable, `ArtifactCorrupt` when its deserialization fails
for any other reason; in either case startup fails and the process performs
no interactions at all. -/
theorem claim_C5_first_failure (lin rid : ArtifactState Predictor)
    (names : ArtifactState (List String)) (ins : List Interaction) :
    (∀ e, load_resources lin rid names = .error e →
      startProcess lin rid names ins = .error e) ∧
    (∀ m, lin = .notFound m →
      load_resources lin rid names = .error (.artifactNotFound m)) ∧
    (∀ m, lin = .corrupt m →
      load_resources lin rid names = .error (.artifactCorrupt m)) ∧
    (∀ p m, lin = .ok p → rid = .notFound m →
      load_resources lin rid names = .error (.artifactNotFound m)) ∧
    (∀ p m, lin = .ok p → rid = .corrupt m →
      load_resources lin rid names = .error (.artifactCorrupt m)) ∧
    (∀ p q m, lin = .ok p → rid = .ok q → names = .notFound m →
      load_resources lin rid names = .error (.artifactNotFound m)) ∧
    (∀ p q m, lin = .ok p → rid = .ok q → names = .corrupt m →
      load_resources lin rid names = .error (.artifactCorrupt m)) := by
  refine ⟨?_, ?_, ?_, ?_, ?_, ?_, ?_⟩
  · intro e he
    simp [startProcess, he]
  · intro m hm
    subst hm
    rfl
  · intro m hm
    subst hm
    rfl
  · intro p m hp hm
    subst hp
    subst hm
    rfl
  · intro p m hp hm
    subst hp
    subst hm
    rfl
  · intro p q m hp hq hm
    subst hp
    subst hq
    subst hm
    rfl
  · intro p q m hp hq hm
    subst hp
    subst hq
    subst hm
    rfl

/-- C5 witness: when the linear-model location itself is unreadable, startup
reports `ArtifactNotFound` and the process runs no interaction. -/
theorem claim_C5_first_failure_witness :
    load_resources (.notFound "linear_model.pkl") (.ok (constPredictor 0))
        (.ok fullFeatureOrder)
      = .error (.artifactNotFound "linear_model.pkl") ∧
    startProcess (.notFound "linear_model.pkl") (.ok (constPredictor 0))
        (.ok fullFeatureOrder) [(r0, d0, t0)]
      = .error (.artifactNotFound "linear_model.pkl") := by
  have h := claim_C5_first_failure (.notFound "linear_model.pkl")
    (.ok (constPredictor 0)) (.ok fullFeatureOrder) [(r0, d0, t0)]
  exact ⟨h.2.1 "linear_model.pkl" rfl,
    h.1 (.artifactNotFound "linear_model.pkl") (h.2.1 "linear_model.pkl" rfl)⟩

/-- C6: when alignment succeeded but a predictor rejects the aligned vector
(the linear one, or the linear one succeeds and the ridge one rejects), the
interaction's outcome is exactly the prediction-error message; the loaded
resources are untouched and every subsequent interaction still runs and
produces exactly the outcome it would produce on the same loaded state — the
failure aborts that one interaction only and is not retried. -/
theorem claim_C6_prediction_error (s : ProcessState) (r : RawInputs)
    (d : DateD) (t : TimeD) (v : List ℚ) (m : String) (ins : List Interaction)
    (halign : align (build r (combine d t)) s.feature_names = .ok v)
    (hfail : s.linear_model v = .error m ∨
      ∃ a, s.linear_model v = .ok a ∧ s.ridge_model v = .error m) :
    runOutcome s r d t = .predictionError m ∧
    (run s r d t).1.linear_model = s.linear_model ∧
    (run s r d t).1.ridge_model = s.ridge_model ∧
    (run s r d t).1.feature_names = s.feature_names ∧
    (runAll (run s r d t).1 ins).displayed
      = s.displayed ++ [Outcome.predictionError m]
        ++ ins.map (fun i => runOutcome s i.1 i.2.1 i.2.2) := by
  have houtcome : runOutcome s r d t = .predictionError m := by
    rcases hfail with hlin | ⟨a, hlin, hrid⟩
    · simp [runOutcome, halign, hlin]
    · simp [runOutcome, halign, hlin, hrid]
  refine ⟨houtcome, rfl, rfl, rfl, ?_⟩
  have hfun : (fun j : Interaction =>
        runOutcome (run s r d t).1 j.1 j.2.1 j.2.2)
      = fun j : Interaction => runOutcome s j.1 j.2.1 j.2.2 :=
    funext fun j => runOutcome_congr rfl rfl rfl j.1 j.2.1 j.2.2
  have h := runAll_displayed ins (run s r d t).1
  rw [hfun] at h
  rw [h]
  show (s.displayed ++ [runOutcome s r d t]) ++ _ = _
  rw [houtcome]

/-- C6 witness: with a constant linear predictor and a ridge predictor that
rejects every vector, the concrete interaction's outcome is the prediction
error, the loaded resources survive, and a subsequent identical interaction
still runs and yields the same error outcome. -/
theorem claim_C6_prediction_error_witness :
    runOutcome ⟨constPredictor 1, errPredictor "boom", fullFeatureOrder, []⟩
        r0 d0 t0
      = .predictionError "boom" ∧
    (run ⟨constPredictor 1, errPredictor "boom", fullFeatureOrder, []⟩
        r0 d0 t0).1.linear_model
      = (⟨constPredictor 1, errPredictor "boom", fullFeatureOrder, []⟩ :
          ProcessState).linear_model ∧
    (run ⟨constPredictor 1, errPredictor "boom", fullFeatureOrder, []⟩
        r0 d0 t0).1.ridge_model
      = (⟨constPredictor 1, errPredictor "boom", fullFeatureOrder, []⟩ :
          ProcessState).ridge_model ∧
    (run ⟨constPredictor 1, errPredictor "boom", fullFeatureOrder, []⟩
        r0 d0 t0).1.feature_names
      = (⟨constPredictor 1, errPredictor "boom", fullFeatureOrder, []⟩ :
          ProcessState).feature_names ∧
    (runAll (run ⟨constPredictor 1, errPredictor "boom", fullFeatureOrder, []⟩
          r0 d0 t0).1 [(r0, d0, t0)]).displayed
      = [] ++ [Outcome.predictionError "boom"]
        ++ [(r0, d0, t0)].map (fun i =>
            runOutcome ⟨constPredictor 1, errPredictor "boom",
              fullFeatureOrder, []⟩ i.1 i.2.1 i.2.2) :=
  claim_C6_prediction_error
    ⟨constPredictor 1, errPredictor "boom", fullFeatureOrder, []⟩
    r0 d0 t0 alignedV0 "boom" [(r0, d0, t0)] (by rfl)
    (Or.inr ⟨1, rfl, rfl⟩)

/-- C7: a predictor capability that returns a fixed constant for any input
yields exactly that constant from `predict`; with two such predictors loaded,
any interaction whose record aligns displays exactly the two constants. -/
theorem claim_C7_const_predictor (c1 c2 : ℚ) (v : List ℚ) :
    predict (constPredictor c1) v = .ok c1 ∧
    (∀ (r : RawInputs) (d : DateD) (t : TimeD) (order : List String)
        (disp : List Outcome) (w : List ℚ),
      align (build r (combine d t)) order = .ok w →
      runOutcome ⟨constPredictor c1, constPredictor c2, order, disp⟩ r d t
        = .shown c1 c2) := by
  refine ⟨rfl, ?_⟩
  intro r d t order disp w hw
  simp [runOutcome, hw, constPredictor]

/-- C7 witness: constant predictors 3 and 5 yield exactly 3 from `predict`
and the outcome `shown 3 5` at the concrete interaction. -/
theorem claim_C7_const_predictor_witness :
    predict (constPredictor 3) alignedV0 = .ok 3 ∧
    runOutcome ⟨constPredictor 3, constPredictor 5, fullFeatureOrder, []⟩
        r0 d0 t0
      = .shown 3 5 :=
  ⟨(claim_C7_const_predictor 3 5 alignedV0).1,
   (claim_C7_const_predictor 3 5 alignedV0).2 r0 d0 t0 fullFeatureOrder []
     alignedV0 (by rfl)⟩

/-- C8: feature building, alignment and prediction are deterministic and free
of hidden state: two process states that agree on the loaded predictors and
feature order (but may differ in everything else, here the display history)
produce, for identical raw inputs and date/time, the same aligned vector, the
same predictor results on any vector, and the same interaction outcome; the
built record is a pure function of the inputs and date/time alone. -/
theorem claim_C8_deterministic (s1 s2 : ProcessState) (r : RawInputs)
    (d : DateD) (t : TimeD)
    (hlin : s1.linear_model = s2.linear_model)
    (hrid : s1.ridge_model = s2.ridge_model)
    (hord : s1.feature_names = s2.feature_names) :
    align (build r (combine d t)) s1.feature_names
      = align (build r (combine d t)) s2.feature_names ∧
    (∀ w : List ℚ, predict s1.linear_model w = predict s2.linear_model w ∧
      predict s1.ridge_model w = predict s2.ridge_model w) ∧
    runOutcome s1 r d t = runOutcome s2 r d t := by
  refine ⟨by rw [hord], fun w => ⟨by rw [predict, predict, hlin],
    by rw [predict, predict, hrid]⟩, runOutcome_congr hlin hrid hord r d t⟩

/-- C8 witness: two states with the same loaded resources but different
display histories give identical alignment, predictions and outcome at the
concrete interaction. -/
theorem claim_C8_deterministic_witness :
    align (build r0 (combine d0 t0))
        (⟨constPredictor 3, constPredictor 5, fullFeatureOrder, []⟩ :
          ProcessState).feature_names
      = align (build r0 (combine d0 t0))
        (⟨constPredictor 3, constPredictor 5, fullFeatureOrder,
            [Outcome.shown 0 0]⟩ : ProcessState).feature_names ∧
    (∀ w : List ℚ,
      predict (⟨constPredictor 3, constPredictor 5, fullFeatureOrder, []⟩ :
          ProcessState).linear_model w
        = predict (⟨constPredictor 3, constPredictor 5, fullFeatureOrder,
            [Outcome.shown 0 0]⟩ : ProcessState).linear_model w ∧
      predict (⟨constPredictor 3, constPredictor 5, fullFeatureOrder, []⟩ :
          ProcessState).ridge_model w
        = predict (⟨constPredictor 3, constPredictor 5, fullFeatureOrder,
            [Outcome.shown 0 0]⟩ : ProcessState).ridge_model w) ∧
    runOutcome (⟨constPredictor 3, constPredictor 5, fullFeatureOrder, []⟩ :
        ProcessState) r0 d0 t0
      = runOutcome (⟨constPredictor 3, constPredictor 5, fullFeatureOrder,
          [Outcome.shown 0 0]⟩ : ProcessState) r0 d0 t0 :=
  claim_C8_deterministic
    ⟨constPredictor 3, constPredictor 5, fullFeatureOrder, []⟩
    ⟨constPredictor 3, constPredictor 5, fullFeatureOrder,
      [Outcome.shown 0 0]⟩
    r0 d0 t0 rfl rfl rfl

/-- C9: after loading, no operation mutates the loaded predictors or the
expected feature order: one interaction and any sequence of interactions
leave all three untouched (an interaction only appends to the display
history). -/
theorem claim_C9_loaded_immutable (s : ProcessState) (r : RawInputs)
    (d : DateD) (t : TimeD) (ins : List Interaction) :
    (run s r d t).1.linear_model = s.linear_model ∧
    (run s r d t).1.ridge_model = s.ridge_model ∧
    (run s r d t).1.feature_names = s.feature_names ∧
    (runAll s ins).linear_model = s.linear_model ∧
    (runAll s ins).ridge_model = s.ridge_model ∧
    (runAll s ins).feature_names = s.feature_names :=
  ⟨rfl, rfl, rfl, (runAll_loaded ins s).1, (runAll_loaded ins s).2.1,
    (runAll_loaded ins s).2.2⟩

/-- C10: display is all-or-nothing: both estimates are shown exactly when
both predictions succeeded on the aligned vector, and whenever either the
linear or the ridge prediction fails, the outcome is the error message — so
a partial result with only one of the two estimates is never displayed. -/
theorem claim_C10_all_or_nothing (s : ProcessState) (r : RawInputs)
    (d : DateD) (t : TimeD) :
    (∀ a b, runOutcome s r d t = .shown a b →
      ∃ v, align (build r (combine d t)) s.feature_names = .ok v ∧
        s.linear_model v = .ok a ∧ s.ridge_model v = .ok b) ∧
    (∀ v m, align (build r (combine d t)) s.feature_names = .ok v →
      s.linear_model v = .error m →
      runOutcome s r d t = .predictionError m) ∧
    (∀ v a m, align (build r (combine d t)) s.feature_names = .ok v →
      s.linear_model v = .ok a → s.ridge_model v = .error m →
      runOutcome s r d t = .predictionError m) := by
  refine ⟨?_, ?_, ?_⟩
  · intro a b hab
    cases halign : align (build r (combine d t)) s.feature_names with
    | error n => simp [runOutcome, halign] at hab
    | ok v =>
      simp only [runOutcome, halign] at hab
      cases hlin : s.linear_model v with
      | error m => simp [hlin] at hab
      | ok la =>
        simp only [hlin] at hab
        cases hrid : s.ridge_model v with
        | error m => simp [hrid] at hab
        | ok rb =>
          simp only [hrid, Outcome.shown.injEq] at hab
          exact ⟨v, rfl, hab.1 ▸ hlin, hab.2 ▸ hrid⟩
  · intro v m halign hlin
    simp [runOutcome, halign, hlin]
  · intro v a m halign hlin hrid
    simp [runOutcome, halign, hlin, hrid]

/-- C10 witness: with a ridge predictor that rejects every vector, the
concrete interaction's outcome is the error message, never a pair. -/
theorem claim_C10_all_or_nothing_witness :
    runOutcome ⟨constPredictor 2, errPredictor "bad shape", fullFeatureOrder,
        []⟩ r0 d0 t0
      = .predictionError "bad shape" :=
  (claim_C10_all_or_nothing
      ⟨constPredictor 2, errPredictor "bad shape", fullFeatureOrder, []⟩
      r0 d0 t0).2.2 alignedV0 2 "bad shape" (by rfl) rfl rfl

end EnergyApp
